import Mathlib

/-!
Verification of the metric computation and caching pipeline of
`cryptoscanner.py` (repository `alexx1202/cryptoscanner`).

The development is a shallow embedding of the core of the script:

* candle series are lists of `Candle` records with exact rational fields
  (the Python floats are modelled by `ℚ`; the two IEEE non-finite float
  outcomes that matter for the claims, namely division of a nonzero value
  by zero and division of zero by zero, are modelled explicitly by the
  `Cell.inf` and `Cell.nan` constructors of the cell-value type);
* the network client (`requests.get` plus JSON parsing) is passed in as an
  oracle function, exactly as the specification treats the Market Data
  Client as an external collaborator;
* every fallible Python path (raising `KeyError`, `TypeError`,
  `ValueError`, `AttributeError`, `IndexError`) is modelled by
  `Option`/`Except` results.
-/

namespace CryptoScanner

/-- Candle record, one row of the parsed kline dataframe of
`fetch_klines` (source lines 63-67): timestamp in milliseconds and the six
numeric columns.  The field `open` of the source is spelled `open_`
because `open` is a Lean keyword. -/
structure Candle where
  ts : ℕ
  open_ : ℚ
  high : ℚ
  low : ℚ
  close : ℚ
  volume : ℚ
  turnover : ℚ
deriving DecidableEq

/-- Value of one metric cell as stored by `compute_metric_df`
(source line 120, `df.at[s, col] = val`).  `null` is the Python `None`
kept when no branch fires; `num q` is a finite float, modelled exactly as
a rational; `inf b` is the IEEE infinity produced when numpy divides a
nonzero float by zero (`b` is true for `+inf`); `nan` is the result of
dividing zero by zero; `corr xs ys` is a symbolic record of the
floating-point Pearson correlation of the two close series (its numeric
value involves a square root and is outside the rational model — no claim
depends on it). -/
inductive Cell where
  | null
  | num (q : ℚ)
  | inf (pos : Bool)
  | nan
  | corr (xs ys : List ℚ)
deriving DecidableEq

/-- Python float division of `a` by `b` followed by multiplication with
100, as in `(x - y) / y * 100` on numpy float64 values: division by zero
yields a signed infinity (or NaN when the numerator is also zero), never
an exception; multiplying an infinity or NaN by 100 leaves it unchanged. -/
def pydiv100 (a b : ℚ) : Cell :=
  if b = 0 then (if a = 0 then Cell.nan else Cell.inf (decide (0 < a)))
  else Cell.num (a / b * 100)

/-- Close price of the first candle, `kl['close'].iloc[0]`
(used only under a guard that the series is nonempty). -/
def closeFirst (kl : List Candle) : ℚ := (kl.head?.map Candle.close).getD 0

/-- Close price of the last candle, `kl['close'].iloc[-1]`. -/
def closeLast (kl : List Candle) : ℚ := (kl.getLast?.map Candle.close).getD 0

/-- Maximum of a list of rationals, `series.max()`; only used under a
guard that the series is nonempty (pandas would give NaN on empty). -/
def listMax : List ℚ → ℚ
  | [] => 0
  | x :: xs => xs.foldl max x

/-- Minimum of a list of rationals, `series.min()`; only used under a
guard that the series is nonempty. -/
def listMin : List ℚ → ℚ
  | [] => 0
  | x :: xs => xs.foldl min x

/-- Value of `kl['high'].max()`. -/
def maxHigh (kl : List Candle) : ℚ := listMax (kl.map Candle.high)

/-- Value of `kl['low'].min()`. -/
def minLow (kl : List Candle) : ℚ := listMin (kl.map Candle.low)

/-- Value of `kl.get('volume', pd.Series(dtype=float)).sum()`
(source lines 111 and 113): sum of the volume column, `0` for the empty
frame because the pandas sum of an empty series is `0.0`. -/
def sumVolume (kl : List Candle) : ℚ := (kl.map Candle.volume).sum

/-- Cell computation of `compute_metric_df` for one (symbol, period)
pair, source lines 105-119.  `kl` is the current-window series, `klPrev`
the previous-window series fetched in the `volume_change` branch, and
`base` the reference-symbol series fetched in the `correlation` branch
(the source fetches `klPrev` and `base` lazily inside their branches; the
model receives them as arguments, which is observationally equal because
fetching is pure here).  The Python test `'close' in kl` (membership in
the dataframe columns) is modelled by `kl ≠ []`, because the frames
produced by `fetch_all_klines` have all seven columns exactly when they
are nonempty; for the same reason the `price_range` guard
`{'high','low'}.issubset(kl.columns) and not kl.empty` collapses to
`kl ≠ []`.  The truthiness test `if prev:` of line 114 is `prev ≠ 0`. -/
def computeCell (metric : String) (kl klPrev base : List Candle) : Cell :=
  if metric = "price_change" ∧ kl ≠ [] ∧ 1 < kl.length then
    pydiv100 (closeLast kl - closeFirst kl) (closeFirst kl)
  else if metric = "price_range" ∧ kl ≠ [] then
    pydiv100 (maxHigh kl - minLow kl) (minLow kl)
  else if metric = "volume_change" then
    (if sumVolume klPrev ≠ 0 then
      Cell.num ((sumVolume kl - sumVolume klPrev) / sumVolume klPrev * 100)
    else Cell.null)
  else if metric = "correlation" ∧ kl ≠ [] ∧ 1 < kl.length then
    (if base ≠ [] ∧ 1 < base.length then
      Cell.corr (kl.map Candle.close) (base.map Candle.close)
    else Cell.null)
  else Cell.null

/-- Source line 15: `INTERVAL = '1h'`. -/
def INTERVAL : String := "1h"

/-- Source line 16: the watch-list. -/
def SYMS : List String := ["BTCUSDT", "ETHUSDT", "SOLUSDT"]

/-- Source line 17: the lookback periods. -/
def PERIODS : List String := ["1h", "6h", "12h"]

/-- Source line 125: the known metric kinds. -/
def METRICS : List String :=
  ["price_change", "price_range", "volume_change", "correlation", "funding_rate"]

/-- Natural number denoted by a digit string, the core of Python
`int(str)`: every character must be a decimal digit and at least one
digit must be present, otherwise `int` raises `ValueError` (modelled
`none`).  The grammar extras of `int` (surrounding whitespace,
underscores between digits) never occur in this program and are left
out. -/
def natOfDigits (cs : List Char) : Option ℕ :=
  if cs = [] then none
  else if cs.all (fun c => '0' ≤ c ∧ c ≤ '9') then
    some (cs.foldl (fun n c => n * 10 + (c.toNat - '0'.toNat)) 0)
  else none

/-- Python `int(str)` on a character list: an optional sign followed by
digits. -/
def intOfChars : List Char → Option ℤ
  | '-' :: cs => (natOfDigits cs).map (fun n => -(n : ℤ))
  | '+' :: cs => (natOfDigits cs).map (fun n => (n : ℤ))
  | cs => (natOfDigits cs).map (fun n => (n : ℤ))

/-- Last character of a string, Python `s[-1]`; `none` models the
`IndexError` raised on the empty string. -/
def strLast? (s : String) : Option Char := s.toList.getLast?

/-- All characters of a string except the last, Python `s[:-1]`. -/
def strDropLast (s : String) : List Char := s.toList.dropLast

/-- Source lines 24-26.  `unit, val = p[-1], int(p[:-1])` followed by
`val * (3600 if unit=='h' else 86400)`: any unit other than `h` —
including minutes — is priced as days.  Indexing `p[-1]` raises
`IndexError` on the empty string and `int(p[:-1])` raises `ValueError`
when the prefix is not an integer literal; both raising paths are
modelled by `none`. -/
def period_secs (p : String) : Option ℤ :=
  match strLast? p with
  | none => none
  | some unit =>
    (intOfChars (strDropLast p)).map
      (fun v => v * (if unit = 'h' then 3600 else 86400))

/-- Python `s.endswith(c)` for a one-character suffix: true exactly when
the string is nonempty and its last character is `c`. -/
def strEndsWith (s : String) (c : Char) : Bool := strLast? s = some c

/-- Source lines 28-36: dispatch on the unit suffix, minutes first, then
hours, then days; any other suffix raises `ValueError` (modelled `none`),
as does a non-integer prefix. -/
def interval_to_seconds (s : String) : Option ℤ :=
  if strEndsWith s 'm' then (intOfChars (strDropLast s)).map (fun v => v * 60)
  else if strEndsWith s 'h' then
    (intOfChars (strDropLast s)).map (fun v => v * 3600)
  else if strEndsWith s 'd' then
    (intOfChars (strDropLast s)).map (fun v => v * 86400)
  else none

/-- Timestamp in milliseconds of the last row of a page,
`int(df.index[-1].timestamp() * 1000)` (source line 79); only used under
a guard that the page is nonempty. -/
def lastTs (df : List Candle) : ℕ := (df.getLast?.map Candle.ts).getD 0

/-- Pagination loop of `fetch_all_klines` (source lines 71-81).  The
`page` oracle stands for `fetch_klines(sym, cur, chunk_end)`: the parsed
page the client returns for one chunk request.  Mirrors the source
exactly: while `cur < end`, request the chunk
`[cur, min(cur + 200 * interval_sec * 1000, end)]`; stop on an empty
page; append the page; advance `cur` to the last received timestamp plus
one interval; stop when the new `cur` does not pass the chunk end.  The
`fuel` argument only bounds the number of iterations so that the
recursion is structural: the loop can only continue when the new `cur`
strictly exceeds the chunk end, which is at least `cur`, so `cur` grows
by at least one per iteration while staying below `endMs`, and the
`endMs + 1` fuel supplied by `fetch_all_klines` is never exhausted
(`fetch_all_klines_go_fuel` below makes this exact). -/
def fetch_all_klines_go (page : ℕ → ℕ → List Candle)
    (endMs interval_sec : ℕ) :
    ℕ → ℕ → List (List Candle) → List (List Candle)
  | 0, _, dfs => dfs
  | fuel + 1, cur, dfs =>
    if cur < endMs then
      if (page cur (min (cur + 200 * interval_sec * 1000) endMs)).isEmpty then
        dfs
      else if lastTs (page cur (min (cur + 200 * interval_sec * 1000) endMs))
          + interval_sec * 1000 ≤ min (cur + 200 * interval_sec * 1000) endMs
      then
        dfs ++ [page cur (min (cur + 200 * interval_sec * 1000) endMs)]
      else
        fetch_all_klines_go page endMs interval_sec fuel
          (lastTs (page cur (min (cur + 200 * interval_sec * 1000) endMs))
            + interval_sec * 1000)
          (dfs ++ [page cur (min (cur + 200 * interval_sec * 1000) endMs)])
    else dfs

/-- Stable insertion of a candle into a timestamp-sorted list: the new
candle goes before every candle of equal timestamp already present. -/
def insertByTs (c : Candle) : List Candle → List Candle
  | [] => [c]
  | d :: ds => if d.ts < c.ts then d :: insertByTs c ds else c :: d :: ds

/-- Sort a candle list by timestamp, `pd.concat(dfs).sort_index()`
(source line 83).  A stable insertion sort; pandas does not fix the
relative order of rows with equal timestamps, so any sort agreeing on
the timestamp order is a valid model, and which duplicate survives the
subsequent deduplication is irrelevant to every claim. -/
def sortByTs : List Candle → List Candle
  | [] => []
  | c :: cs => insertByTs c (sortByTs cs)

/-- Deduplication by timestamp keeping the first occurrence,
`out[~out.index.duplicated(keep='first')]` (source line 84): a row is
kept exactly when its timestamp has not been seen earlier in the list. -/
def dropDupTs : List Candle → List ℕ → List Candle
  | [], _ => []
  | c :: cs, seen =>
    if c.ts ∈ seen then dropDupTs cs seen
    else c :: dropDupTs cs (c.ts :: seen)

/-- Source lines 70-86, `fetch_all_klines(sym, start, end, interval_sec)`
with the single-page fetch abstracted into the `page` oracle: run the
pagination loop, then concatenate, sort by timestamp and deduplicate; an
empty page list gives the empty frame. -/
def fetch_all_klines (page : ℕ → ℕ → List Candle)
    (startMs endMs interval_sec : ℕ) : List Candle :=
  match fetch_all_klines_go page endMs interval_sec (endMs + 1) startMs [] with
  | [] => []
  | dfs => dropDupTs (sortByTs dfs.flatten) []

/-- One row of the metric dataframe built by `compute_metric_df`: the
symbol (the dataframe index), the period-column cells in period order
(each with its column name `metric_period`), and the extra
`funding_rate` column written only for that metric (source lines
121-122). -/
structure MetricRow where
  symbol : String
  cells : List (String × Cell)
  funding : Option ℚ
deriving DecidableEq

/-- Span of one period in milliseconds, `period_secs(p) * 1000` (source
line 101).  On the concrete members of `PERIODS` the parse never fails,
so the `getD 0` default is never exercised there. -/
def spanMs (p : String) : ℕ := (((period_secs p).getD 0).toNat) * 1000

/-- Value of `interval_to_seconds(INTERVAL)` (source line 98) as a
natural number; the parse succeeds on the concrete `INTERVAL`. -/
def intervalSecOf (s : String) : ℕ := ((interval_to_seconds s).getD 0).toNat

/-- Source lines 95-123, `compute_metric_df(sym_list, metric)`.  The
Market Data Client is abstracted into two oracles: `page s` is the
single-page kline fetch for symbol `s` (fed to `fetch_all_klines`
exactly as in the source) and `fund s` the funding-rate value
`fetch_funding(s)` returns.  For each symbol and period the current
window `[now − span, now)`, the previous window shifted back by one
span and the reference-symbol window are fetched and the cell computed
by `computeCell`; the `funding_rate` metric additionally fills the
funding column.  Column names follow the f-string `metric_period`.
Subtraction on `ℕ` matches the Python integers because `now_ms` exceeds
every span in any real run. -/
def compute_metric_df (page : String → ℕ → ℕ → List Candle)
    (fund : String → ℚ) (now_ms : ℕ) (sym_list : List String)
    (metric : String) : List MetricRow :=
  sym_list.map (fun s =>
    { symbol := s
      cells := PERIODS.map (fun p =>
        let span := spanMs p
        let kl := fetch_all_klines (page s) (now_ms - span) now_ms
          (intervalSecOf INTERVAL)
        let klPrev := fetch_all_klines (page s) (now_ms - span - span)
          (now_ms - span) (intervalSecOf INTERVAL)
        let base := fetch_all_klines (page "BTCUSDT") (now_ms - span) now_ms
          (intervalSecOf INTERVAL)
        (metric ++ "_" ++ p, computeCell metric kl klPrev base))
      funding := if metric = "funding_rate" then some (fund s) else none })

/-- Source lines 44-52, `get_metric_df_cached(metric)`.  The cache is an
association list from metric name to (table, timestamp) — lookup takes
the first entry, and storing prepends, which shadows older entries
exactly like the Python dict assignment.  The table type is abstract
(`α`) and the computation is the `compute` collaborator; the returned
natural number counts how many times `compute` ran during this call,
the observable of the call-counter test of the specification.  Times
are exact rationals; `time.time()` is sampled once at entry (`now`) and
that same value is stored as the freshness stamp.  The mutual-exclusion
lock guards only the dictionary accesses and has no observable effect
in this sequential model. -/
def get_metric_df_cached {α : Type} (compute : String → α) (ttl now : ℚ)
    (cache : List (String × α × ℚ)) (metric : String) :
    α × List (String × α × ℚ) × ℕ :=
  match cache.lookup metric with
  | some (df, ts) =>
    if now - ts < ttl then (df, cache, 0)
    else ((compute metric), (metric, compute metric, now) :: cache, 1)
  | none => ((compute metric), (metric, compute metric, now) :: cache, 1)

/-- Parsed JSON value, the result of `safe_json` in `fetch_funding`
(source lines 88-92).  `safe_json` returns `{}` (that is,
`JVal.obj []`) when the body fails to parse, and otherwise whatever
JSON value the upstream sent — which need not be an object. -/
inductive JVal where
  | null
  | bool (b : Bool)
  | num (q : ℚ)
  | str (s : String)
  | arr (elems : List JVal)
  | obj (fields : List (String × JVal))

/-- Python `d.get(key, default)`: defined only on dicts; on any other
value the attribute access raises `AttributeError`. -/
def jget (v : JVal) (key : String) (default : JVal) : Except String JVal :=
  match v with
  | JVal.obj fs => Except.ok ((fs.lookup key).getD default)
  | _ => Except.error "AttributeError"

/-- Python iteration `for e in lst`: lists yield their elements, strings
their one-character substrings, dicts their keys; numbers, booleans and
`None` raise `TypeError`. -/
def jiter (v : JVal) : Except String (List JVal) :=
  match v with
  | JVal.arr es => Except.ok es
  | JVal.str s => Except.ok (s.toList.map (fun c => JVal.str (String.mk [c])))
  | JVal.obj fs => Except.ok (fs.map (fun f => JVal.str f.1))
  | _ => Except.error "TypeError"

/-- Python `e['symbol']` inside the generator of source line 92: a dict
lookup that raises `KeyError` when the key is absent and `TypeError` when
`e` is not a dict (string and list subscripts take integers). -/
def jsubscriptSymbol (e : JVal) : Except String JVal :=
  match e with
  | JVal.obj fs =>
    match fs.lookup "symbol" with
    | some v => Except.ok v
    | none => Except.error "KeyError: symbol"
  | _ => Except.error "TypeError"

/-- Python equality `e['symbol'] == sym` against the query string: true
exactly for the equal string value (comparing a non-string JSON value to
a string is `False`, never an error). -/
def jeqStr (v : JVal) (s : String) : Bool :=
  match v with
  | JVal.str t => t = s
  | _ => false

/-- Split a character list at every separator recognized by `p`
(separators are dropped; `n` separators give `n + 1` groups). -/
def splitOnChar (p : Char → Bool) : List Char → List (List Char)
  | [] => [[]]
  | c :: cs =>
    if p c then [] :: splitOnChar p cs
    else
      match splitOnChar p cs with
      | [] => [[c]]
      | g :: gs => (c :: g) :: gs

/-- Unsigned decimal literal: digits with an optional fractional part. -/
def parseDecimalCore (cs : List Char) : Option ℚ :=
  match splitOnChar (fun c => c = '.') cs with
  | [ip] => (natOfDigits ip).map (fun n => (n : ℚ))
  | [ip, fp] =>
    match natOfDigits ip, natOfDigits fp with
    | some n, some f => some ((n : ℚ) + (f : ℚ) / ((10 : ℚ) ^ fp.length))
    | _, _ => none
  | _ => none

/-- Optionally signed decimal literal. -/
def parseSigned : List Char → Option ℚ
  | '-' :: rest => (parseDecimalCore rest).map (fun q => -q)
  | '+' :: rest => parseDecimalCore rest
  | cs => parseDecimalCore cs

/-- Decimal float literal parser standing for Python `float(str)`:
optional sign, digits with an optional fractional part, and an optional
decimal exponent.  Inputs outside this grammar (surrounding whitespace,
a bare leading or trailing dot, and the special `inf`/`nan` spellings —
none of which occur in exchange payloads) are rejected like the
`ValueError` raise of `float`. -/
def parseDecimal (s : String) : Option ℚ :=
  match splitOnChar (fun c => c = 'e' ∨ c = 'E') s.toList with
  | [m] => parseSigned m
  | [m, ex] =>
    match parseSigned m, intOfChars ex with
    | some q, some z => some (q * (10 : ℚ) ^ z)
    | _, _ => none
  | _ => none

/-- Python `float(x)` on a JSON value: numbers and booleans convert,
strings go through the decimal parser (`ValueError` on failure), and
`None`, lists and dicts raise `TypeError`. -/
def pyFloat (v : JVal) : Except String ℚ :=
  match v with
  | JVal.num q => Except.ok q
  | JVal.bool b => Except.ok (if b then 1 else 0)
  | JVal.str s =>
    match parseDecimal s with
    | some q => Except.ok q
    | none => Except.error "ValueError"
  | _ => Except.error "TypeError"

/-- Generator scan of source line 92,
`next((e.get('fundingRate',0) for e in lst if e['symbol']==sym), 0)`:
walk the entries lazily, evaluate `e['symbol']` (whose failure
propagates), yield `e.get('fundingRate', 0)` of the first match, and
fall back to the integer `0` default when no entry matches. -/
def findFundingEntry (sym : String) : List JVal → Except String JVal
  | [] => Except.ok (JVal.num 0)
  | e :: rest => do
    let v ← jsubscriptSymbol e
    if jeqStr v sym then
      match e with
      | JVal.obj fs => Except.ok ((fs.lookup "fundingRate").getD (JVal.num 0))
      | _ => Except.error "AttributeError"
    else findFundingEntry sym rest

/-- Source lines 88-92, `fetch_funding(sym)` applied to the JSON value
`data` that `safe_json` produced: drill into `result`, then `list`,
iterate the list for the matching symbol entry, and convert its funding
rate with `float`.  Every Python raise is an `Except.error`. -/
def fetch_funding (sym : String) (data : JVal) : Except String ℚ := do
  let result ← jget data "result" (JVal.obj [])
  let lstv ← jget result "list" (JVal.arr [])
  let lst ← jiter lstv
  let entry ← findFundingEntry sym lst
  pyFloat entry

/-- Open price of the first candle.  The source never reads it in the
`price_change` branch — it reads `kl['close'].iloc[0]` — but the
specification formula of C1 is stated in terms of the opening price, so
the spec-side definition needs it. -/
def openFirst (kl : List Candle) : ℚ := (kl.head?.map Candle.open_).getD 0

/-- The price_change formula exactly as claim C1 words it: (close of
last candle − open of first candle) / open of first candle × 100,
null exactly when the series has fewer than 1 candle or the opening
price is zero. -/
def spec_price_change (kl : List Candle) : Cell :=
  if kl.length < 1 ∨ openFirst kl = 0 then Cell.null
  else Cell.num ((closeLast kl - openFirst kl) / openFirst kl * 100)

/-- The price_change computation as the code actually behaves, written
in the vocabulary of the amended claim: (last close − first close) /
first close × 100; null exactly when the series has fewer than 2
candles; a zero first close gives an IEEE infinity whose sign follows
the last close, or NaN when the last close is zero as well. -/
def amended_price_change (kl : List Candle) : Cell :=
  if kl.length < 2 then Cell.null
  else if closeFirst kl = 0 then
    (if closeLast kl = 0 then Cell.nan else Cell.inf (decide (0 < closeLast kl)))
  else Cell.num ((closeLast kl - closeFirst kl) / closeFirst kl * 100)

/-- The price_range formula exactly as claim C7 words it: null when the
series is empty or the minimum low is zero, the percentage otherwise. -/
def spec_price_range (kl : List Candle) : Cell :=
  if kl = [] ∨ minLow kl = 0 then Cell.null
  else Cell.num ((maxHigh kl - minLow kl) / minLow kl * 100)

/-- The price_range computation as the code actually behaves, in the
vocabulary of the amended claim: null exactly when the series is empty;
a zero minimum low gives an IEEE infinity whose sign follows the
maximum high, or NaN when the maximum high is zero as well. -/
def amended_price_range (kl : List Candle) : Cell :=
  if kl = [] then Cell.null
  else if minLow kl = 0 then
    (if maxHigh kl = 0 then Cell.nan else Cell.inf (decide (0 < maxHigh kl)))
  else Cell.num ((maxHigh kl - minLow kl) / minLow kl * 100)

/-- Two-candle series for the C1 counterexample: first candle opens at
100 and closes at 50, second closes at 110. -/
def c1_two : List Candle :=
  [⟨0, 100, 110, 40, 50, 1, 1⟩, ⟨3600000, 50, 120, 45, 110, 1, 1⟩]

/-- One-candle series for the C1 counterexample: one candle with
nonzero open 100 and close 110. -/
def c1_single : List Candle := [⟨0, 100, 112, 95, 110, 1, 1⟩]

/-- Zero-first-close series for the C1 counterexample: the first candle
opens and closes at 0, the second closes at 5. -/
def c1_zero : List Candle :=
  [⟨0, 0, 1, 0, 0, 1, 1⟩, ⟨3600000, 0, 6, 1, 5, 1, 1⟩]

/-- One-candle series for the C7 counterexample: its low is 0 and its
high is 5, so the minimum low of the series is zero. -/
def c7_zero_low : List Candle := [⟨0, 1, 5, 0, 2, 1, 1⟩]

/-- Malformed tickers response for C2: syntactically valid JSON of the
expected overall shape whose single list entry lacks the `symbol`
key. -/
def c2_malformed_tickers : JVal :=
  JVal.obj [("result", JVal.obj [("list",
    JVal.arr [JVal.obj [("fundingRate", JVal.str "0.0001")]])])]

/-- Candle at timestamp `ts` used by the pagination scenario of C4 (the
price fields are irrelevant to the pagination logic). -/
def hourCandle (ts : ℕ) : Candle := ⟨ts, 1, 1, 1, 1, 1, 1⟩

/-- Mocked single-page kline client of the C4 pagination test: the
upstream holds 600 consecutive hourly candles at timestamps 0, 3600000,
…, covering the whole 600-hour request window, so that the window spans
exactly three full 200-row pages; one page request returns the candles
of the half-open chunk window in time order, capped at the 200-row page
limit, exactly the `CandleSeries` contract of the specification. -/
def mockPages (startMs endMs : ℕ) : List Candle :=
  (((List.range 600).map (fun k => hourCandle (k * 3600000))).filter
    (fun c => decide (startMs ≤ c.ts) && decide (c.ts < endMs))).take 200

/-- Scaling of every price field of a candle by a constant `k`; volume
and turnover are not prices and stay fixed. -/
def scaleCandle (k : ℚ) (c : Candle) : Candle :=
  { c with open_ := k * c.open_, high := k * c.high,
           low := k * c.low, close := k * c.close }

/-! Helper lemmas. -/

/-- One unit of fuel beyond the remaining window is never consumed: the
loop leaves `fetch_all_klines_go` through one of its stopping branches
before the fuel runs out, so the fuel encoding agrees with the unbounded
Python `while` loop. -/
theorem fetch_all_klines_go_fuel (page : ℕ → ℕ → List Candle)
    (endMs interval_sec : ℕ) :
    ∀ fuel cur dfs, endMs ≤ cur + fuel →
      fetch_all_klines_go page endMs interval_sec (fuel + 1) cur dfs =
        fetch_all_klines_go page endMs interval_sec fuel cur dfs := by
  intro fuel
  induction fuel with
  | zero =>
    intro cur dfs h
    have hc : ¬ cur < endMs := by omega
    simp [fetch_all_klines_go, hc]
  | succ fuel ih =>
    intro cur dfs h
    conv_lhs => rw [fetch_all_klines_go]
    conv_rhs => rw [fetch_all_klines_go]
    by_cases hc : cur < endMs
    · simp only [hc, if_true]
      by_cases he : (page cur (min (cur + 200 * interval_sec * 1000) endMs)).isEmpty
      · simp [he]
      · simp only [he, if_false]
        by_cases h2 : lastTs (page cur (min (cur + 200 * interval_sec * 1000) endMs))
            + interval_sec * 1000 ≤ min (cur + 200 * interval_sec * 1000) endMs
        · simp [h2]
        · simp only [h2, if_false]
          apply ih
          have hmin : cur ≤ min (cur + 200 * interval_sec * 1000) endMs :=
            le_min (by omega) (by omega)
          omega
    · simp [hc]

/-- Guard reduction of `computeCell` for the `price_change` metric: the
`'close' in kl` column test is subsumed by the length test. -/
theorem computeCell_price_change (kl klPrev base : List Candle) :
    computeCell "price_change" kl klPrev base =
      if 1 < kl.length then
        pydiv100 (closeLast kl - closeFirst kl) (closeFirst kl)
      else Cell.null := by
  by_cases h : 1 < kl.length
  · have hne : kl ≠ [] := by cases kl <;> simp_all
    simp [computeCell, h, hne]
  · simp [computeCell, h, (by decide : "price_change" ≠ "price_range"),
      (by decide : "price_change" ≠ "volume_change"),
      (by decide : "price_change" ≠ "correlation")]

/-- Guard reduction of `computeCell` for the `price_range` metric. -/
theorem computeCell_price_range (kl klPrev base : List Candle) :
    computeCell "price_range" kl klPrev base =
      if kl ≠ [] then pydiv100 (maxHigh kl - minLow kl) (minLow kl)
      else Cell.null := by
  by_cases h : kl = []
  · subst h
    simp [computeCell, (by decide : "price_range" ≠ "volume_change")]
  · simp [computeCell, h, (by decide : "price_range" ≠ "price_change")]

/-- Guard reduction of `computeCell` for the `volume_change` metric. -/
theorem computeCell_volume_change (kl klPrev base : List Candle) :
    computeCell "volume_change" kl klPrev base =
      if sumVolume klPrev ≠ 0 then
        Cell.num ((sumVolume kl - sumVolume klPrev) / sumVolume klPrev * 100)
      else Cell.null := by
  simp [computeCell, (by decide : "volume_change" ≠ "price_change"),
    (by decide : "volume_change" ≠ "price_range")]

/-- Any metric name outside the known set leaves every guard false. -/
theorem computeCell_unknown (metric : String) (kl klPrev base : List Candle)
    (h : metric ∉ METRICS) : computeCell metric kl klPrev base = Cell.null := by
  simp only [METRICS, List.mem_cons, List.not_mem_nil, or_false] at h
  push_neg at h
  obtain ⟨h1, h2, h3, h4, _h5⟩ := h
  simp [computeCell, h1, h2, h3, h4]

/-- First close of a price-scaled series is the scaled first close. -/
theorem closeFirst_map_scale (k : ℚ) (kl : List Candle) :
    closeFirst (kl.map (scaleCandle k)) = k * closeFirst kl := by
  cases kl <;> simp [closeFirst, scaleCandle]

/-- Last close of a price-scaled series is the scaled last close. -/
theorem closeLast_map_scale (k : ℚ) (kl : List Candle) :
    closeLast (kl.map (scaleCandle k)) = k * closeLast kl := by
  induction kl with
  | nil => simp [closeLast]
  | cons c cs ih =>
    cases cs with
    | nil => simp [closeLast, scaleCandle]
    | cons d ds =>
      simp only [List.map_cons, closeLast, List.getLast?_cons_cons] at *
      exact ih

/-- Python float division is invariant under scaling numerator and
denominator by the same positive constant, also through the IEEE
zero-denominator outcomes. -/
theorem pydiv100_mul_left (k a b : ℚ) (hk : 0 < k) :
    pydiv100 (k * a) (k * b) = pydiv100 a b := by
  have hk0 : k ≠ 0 := ne_of_gt hk
  unfold pydiv100
  by_cases hb : b = 0
  · subst hb
    rw [mul_zero]
    by_cases ha : a = 0
    · simp [ha]
    · have hka : k * a ≠ 0 := mul_ne_zero hk0 ha
      simp [hka, ha, decide_eq_decide, mul_pos_iff_of_pos_left hk]
  · have hkb : k * b ≠ 0 := mul_ne_zero hk0 hb
    simp [hb, hkb, mul_div_mul_left a b hk0]

/-! Claim theorems. -/

/-- C1, counterexample.  The price_change cell the code computes differs
from the formula the claim states, at three concrete series: a
two-candle series (the code divides by the first close 50, the claim by
the first open 100), a one-candle series (the code yields null although
the claim declares the value defined for one candle and nonzero open),
and a series whose first close is zero (the code yields an IEEE
infinity where the claim demands null). -/
theorem c1_counterexample :
    computeCell "price_change" c1_two [] [] ≠ spec_price_change c1_two ∧
    computeCell "price_change" c1_single [] [] ≠ spec_price_change c1_single ∧
    computeCell "price_change" c1_zero [] [] ≠ spec_price_change c1_zero := by
  refine ⟨?_, ?_, ?_⟩ <;>
      rw [computeCell_price_change] <;>
      norm_num [c1_two, c1_single, c1_zero, spec_price_change, openFirst,
        closeFirst, closeLast, pydiv100] <;>
      decide

/-- C1, amended.  For every symbol and period the price_change cell
equals (close of last candle − close of first candle) / close of first
candle × 100 over the current series, is null exactly when the current
series has fewer than 2 candles, and on a zero first close degrades to
an IEEE infinity (NaN when the last close is zero too) instead of
null. -/
theorem c1_amended_price_change (kl klPrev base : List Candle) :
    computeCell "price_change" kl klPrev base = amended_price_change kl := by
  rw [computeCell_price_change]
  unfold amended_price_change pydiv100
  by_cases h : 1 < kl.length
  · have h2 : ¬ kl.length < 2 := by omega
    simp only [h, if_true, h2, if_false]
    by_cases hf : closeFirst kl = 0
    · simp [hf, sub_zero]
    · simp [hf]
  · have h2 : kl.length < 2 := by omega
    simp [h, h2]

/-- C1, amended, witness at a concrete series: the two-candle series of
the counterexample has the code value (110 − 50) / 50 × 100 = 120. -/
theorem c1_amended_witness :
    computeCell "price_change" c1_two [] [] = amended_price_change c1_two ∧
    amended_price_change c1_two = Cell.num 120 :=
  ⟨c1_amended_price_change c1_two [] [],
    by norm_num [amended_price_change, c1_two, closeFirst, closeLast]⟩

/-- C3.  For every metric kind, when the fetched candle data of a
(symbol, period) pair is empty — the current-window series and the
previous-window series — the computed cell value is null, whatever the
reference-symbol series holds. -/
theorem c3_empty_data_cell_null (metric : String) (base : List Candle) :
    computeCell metric [] [] base = Cell.null := by
  simp [computeCell, sumVolume]

/-- C7, counterexample.  On a one-candle series with low 0 and high 5
the claim formula yields null (its minimum low is zero) but the code
divides 5 by zero and stores an IEEE `+inf`, which is not null. -/
theorem c7_counterexample :
    computeCell "price_range" c7_zero_low [] [] ≠ spec_price_range c7_zero_low := by
  rw [computeCell_price_range]
  norm_num [c7_zero_low, spec_price_range, maxHigh, minLow, listMax, listMin,
    pydiv100]
  decide

/-- C7, amended.  For every symbol and period the price_range cell
equals (max high − min low) / min low × 100 over the current series, is
null exactly when the series is empty, and on a zero minimum low
degrades to an IEEE infinity (NaN when the maximum high is zero too)
instead of null. -/
theorem c7_amended_price_range (kl klPrev base : List Candle) :
    computeCell "price_range" kl klPrev base = amended_price_range kl := by
  rw [computeCell_price_range]
  unfold amended_price_range pydiv100
  by_cases h : kl = []
  · simp [h]
  · simp only [h, ne_eq, not_false_eq_true, if_true, if_false]
    by_cases hl : minLow kl = 0
    · simp [hl, sub_zero]
    · simp [hl]

/-- C7, amended, witness at a concrete series: on the zero-low series
the code stores `+inf`, and on a benign one-candle series with low 40
and high 110 it stores (110 − 40) / 40 × 100 = 175. -/
theorem c7_amended_witness :
    computeCell "price_range" c7_zero_low [] [] = amended_price_range c7_zero_low ∧
    amended_price_range c7_zero_low = Cell.inf true ∧
    amended_price_range [⟨0, 100, 110, 40, 50, 1, 1⟩] = Cell.num 175 :=
  ⟨c7_amended_price_range c7_zero_low [] [],
    by norm_num [amended_price_range, c7_zero_low, maxHigh, minLow, listMax,
      listMin],
    by norm_num [amended_price_range, maxHigh, minLow, listMax, listMin]⟩

/-- C8.  The volume_change computation never divides by zero: whenever
the previous-window volume sum is zero the cell is null, and no input
whatsoever can make the cell an infinity or NaN. -/
theorem c8_volume_change_no_div_by_zero (kl klPrev base : List Candle) :
    (sumVolume klPrev = 0 →
      computeCell "volume_change" kl klPrev base = Cell.null) ∧
    (∀ b, computeCell "volume_change" kl klPrev base ≠ Cell.inf b) ∧
    computeCell "volume_change" kl klPrev base ≠ Cell.nan := by
  rw [computeCell_volume_change]
  by_cases h : sumVolume klPrev = 0
  · simp [h]
  · simp [h]

/-- C8, witness: a nonempty current series against an empty previous
series — previous volume sum zero — produces null, not −100 and not an
infinity. -/
theorem c8_witness :
    computeCell "volume_change" [⟨0, 1, 1, 1, 1, 5, 1⟩] [] [] = Cell.null :=
  (c8_volume_change_no_div_by_zero [⟨0, 1, 1, 1, 1, 5, 1⟩] [] []).1
    (by simp [sumVolume])

/-- C9.  price_change is scale-invariant: on every series on which the
metric is defined (and in fact on every series at all), multiplying
every price by a positive constant leaves the computed cell
unchanged. -/
theorem c9_price_change_scale_invariant (kl klPrev base : List Candle)
    (k : ℚ) (hk : 0 < k)
    (_hdef : computeCell "price_change" kl klPrev base ≠ Cell.null) :
    computeCell "price_change" (kl.map (scaleCandle k)) klPrev base =
      computeCell "price_change" kl klPrev base := by
  rw [computeCell_price_change, computeCell_price_change, List.length_map]
  by_cases h : 1 < kl.length
  · simp only [h, if_true]
    rw [closeFirst_map_scale, closeLast_map_scale, ← mul_sub,
      pydiv100_mul_left _ _ _ hk]
  · simp [h]

/-- C9, witness: doubling the prices of the two-candle counterexample
series leaves its price_change cell at 120. -/
theorem c9_witness :
    computeCell "price_change" (c1_two.map (scaleCandle 2)) [] [] =
      computeCell "price_change" c1_two [] [] :=
  c9_price_change_scale_invariant c1_two [] [] 2 (by norm_num)
    (by rw [computeCell_price_change]
        norm_num [c1_two, closeFirst, closeLast, pydiv100]
        decide)

/-- C2.  The funding-rate fetch does raise on a malformed response: a
well-formed tickers payload whose single list entry lacks the `symbol`
key makes `fetch_funding` evaluate `e['symbol']`, which raises
`KeyError` to the caller instead of degrading to 0.0. -/
theorem c2_funding_raises_on_missing_symbol :
    fetch_funding "BTCUSDT" c2_malformed_tickers =
      Except.error "KeyError: symbol" := rfl

set_option maxRecDepth 40000 in
/-- C4.  Against a mocked client holding 600 consecutive hourly candles
— three full 200-row pages spanning the requested window — the
pagination of `fetch_all_klines` returns only the first page of 200
candles instead of the expected 600: after a full first page the next
window start equals the chunk end exactly, so the strict
`cur <= chunk_end` break fires and the remaining pages are never
requested. -/
theorem c4_pagination_stops_after_first_page :
    (fetch_all_klines mockPages 0 2160000000 3600).length = 200 := by decide

/-- C5, counterexample.  The duration string 5m is accepted by both
mappings but priced differently: `interval_to_seconds` reads it as 5
minutes (300 seconds) while `period_secs` treats every non-hour unit as
days and returns 432000 seconds. -/
theorem c5_counterexample :
    (period_secs "5m").isSome ∧ (interval_to_seconds "5m").isSome ∧
      period_secs "5m" ≠ interval_to_seconds "5m" := by decide

/-- C5, amended.  The two mappings agree on every duration string that
does not carry the minutes unit: whenever `interval_to_seconds` accepts
a string not ending in m — so its unit is h or d — `period_secs`
accepts it too and returns the same number of seconds. -/
theorem c5_amended_agreement (p : String)
    (hm : strEndsWith p 'm' = false)
    (hacc : interval_to_seconds p ≠ none) :
    period_secs p = interval_to_seconds p := by
  by_cases hh : strEndsWith p 'h' = true
  · have hl : strLast? p = some 'h' := by simpa [strEndsWith] using hh
    simp [period_secs, interval_to_seconds, hl, hm, hh]
  · by_cases hd : strEndsWith p 'd' = true
    · have hl : strLast? p = some 'd' := by simpa [strEndsWith] using hd
      simp [period_secs, interval_to_seconds, hl, hm, hh, hd,
        (by decide : ('d' = 'h') = False)]
    · exact absurd (by simp [interval_to_seconds, hm, hh, hd]) hacc

/-- C5, amended, witness: both mappings value 5h at 18000 seconds. -/
theorem c5_witness :
    strEndsWith "5h" 'm' = false ∧ interval_to_seconds "5h" ≠ none ∧
      period_secs "5h" = interval_to_seconds "5h" :=
  ⟨by decide, by decide, c5_amended_agreement "5h" (by decide) (by decide)⟩

/-- C6.  After a successful recompute left the cache holding table
`df0` stamped `t0` for a metric, every read at a time within the TTL
returns exactly that table, runs zero computations and leaves the cache
unchanged; a read at or past TTL expiry runs exactly one recomputation
and stores its result stamped with the reading time. -/
theorem c6_cache_ttl {α : Type} (compute : String → α) (ttl : ℚ)
    (cache : List (String × α × ℚ)) (metric : String) (df0 : α) (t0 : ℚ)
    (hc : cache.lookup metric = some (df0, t0)) :
    (∀ t, t - t0 < ttl →
        get_metric_df_cached compute ttl t cache metric = (df0, cache, 0)) ∧
    (∀ t, ¬ t - t0 < ttl →
        get_metric_df_cached compute ttl t cache metric =
          (compute metric, (metric, compute metric, t) :: cache, 1)) := by
  refine ⟨fun t ht => ?_, fun t ht => ?_⟩ <;> simp [get_metric_df_cached, hc, ht]

/-- C6, witness with the 10-second TTL of the source: a cache entry
stamped at time 0 holding table 7, read at time 5 (fresh: cached 7, no
computation) and at time 12 (expired: recomputed 9, stored stamped
12). -/
theorem c6_witness :
    (([("price_change", 7, 0)] : List (String × ℕ × ℚ)).lookup "price_change"
      = some (7, 0)) ∧
    get_metric_df_cached (fun _ => (9 : ℕ)) 10 5 [("price_change", 7, 0)]
      "price_change" = (7, [("price_change", 7, 0)], 0) ∧
    get_metric_df_cached (fun _ => (9 : ℕ)) 10 12 [("price_change", 7, 0)]
      "price_change" =
      (9, ("price_change", 9, 12) :: [("price_change", 7, 0)], 1) := by
  have h := c6_cache_ttl (fun _ => (9 : ℕ)) 10 [("price_change", 7, 0)]
    "price_change" 7 0 (by decide)
  exact ⟨by decide, h.1 5 (by norm_num), h.2 12 (by norm_num)⟩

/-- C10.  For every metric-kind string outside the known set,
`compute_metric_df` raises nothing and returns a table with one row per
watch-list symbol, in watch-list order, in which every period cell is
null and the funding column is absent. -/
theorem c10_unknown_metric_all_null (page : String → ℕ → ℕ → List Candle)
    (fund : String → ℚ) (now_ms : ℕ) (sym_list : List String) (metric : String)
    (h : metric ∉ METRICS) :
    (compute_metric_df page fund now_ms sym_list metric).map MetricRow.symbol
        = sym_list ∧
    ∀ r ∈ compute_metric_df page fund now_ms sym_list metric,
      (∀ cp ∈ r.cells, cp.2 = Cell.null) ∧ r.funding = none := by
  have hfr : metric ≠ "funding_rate" := fun he => h (by simp [METRICS, he])
  refine ⟨?_, ?_⟩
  · simp [compute_metric_df, Function.comp_def]
  · intro r hr
    simp only [compute_metric_df, List.mem_map] at hr
    obtain ⟨s, _hs, rfl⟩ := hr
    refine ⟨?_, by simp [hfr]⟩
    intro cp hcp
    simp only [List.mem_map] at hcp
    obtain ⟨p, _hp, rfl⟩ := hcp
    exact computeCell_unknown metric _ _ _ h

/-- C10, witness: the unknown metric name bogus over a one-symbol
watch-list gives one row of null cells. -/
theorem c10_witness :
    ("bogus" ∉ METRICS) ∧
    ((compute_metric_df (fun _ _ _ => []) (fun _ => 0) 0 ["ETHUSDT"]
        "bogus").map MetricRow.symbol = ["ETHUSDT"] ∧
      ∀ r ∈ compute_metric_df (fun _ _ _ => []) (fun _ => 0) 0 ["ETHUSDT"]
        "bogus", (∀ cp ∈ r.cells, cp.2 = Cell.null) ∧ r.funding = none) :=
  ⟨by decide, c10_unknown_metric_all_null _ _ _ _ _ (by decide)⟩

end CryptoScanner
